import Mathlib

/-!
Shallow embedding of the PISES campus-planning scripts
(`build_ambassador_deck.py`, `build_donor_pricing.py`,
`build_donor_pricing_deck.py`).

Numbers are embedded as exact rationals (`ℚ`) and integers (`ℤ`).
Python's `round` is round-half-to-even (`pyRound` below); `math.ceil`
is the exact ceiling `⌈·⌉`.  Decimal literals of the source are written
as the corresponding rationals (e.g. `43.12` is `1078/25`).
-/

/-- Python's built-in `round` on an exact rational:
round to the nearest integer, ties to the even integer. -/
def pyRound (x : ℚ) : ℤ :=
  if x - ⌊x⌋ < 1/2 then ⌊x⌋
  else if 1/2 < x - ⌊x⌋ then ⌊x⌋ + 1
  else if ⌊x⌋ % 2 = 0 then ⌊x⌋ else ⌊x⌋ + 1

/-- Python's `round(x, 1)` (one decimal place, ties to even) on an exact
rational. -/
def pyRound1 (x : ℚ) : ℚ := (pyRound (x * 10) : ℚ) / 10

namespace compute_scenario
/-!
The locals of `compute_scenario(total)` in `build_ambassador_deck.py`
(lines 401-466), one definition per assignment, in source order.
-/

/-- `ey = round(total * 0.152)` -/
def ey (total : ℤ) : ℤ := pyRound (total * (152/1000))

/-- `pri = round(total * 0.311)` -/
def pri (total : ℤ) : ℤ := pyRound (total * (311/1000))

/-- `inter = round(total * 0.390)` -/
def inter (total : ℤ) : ℤ := pyRound (total * (390/1000))

/-- `sec = total - ey - pri - inter` -/
def sec (total : ℤ) : ℤ := total - ey total - pri total - inter total

/-- `ey_cls = math.ceil(ey / 22 * 1.08)` -/
def ey_cls (total : ℤ) : ℤ := ⌈(ey total : ℚ) / 22 * (108/100)⌉

/-- `pri_cls = math.ceil(pri / 25 * 1.08)` -/
def pri_cls (total : ℤ) : ℤ := ⌈(pri total : ℚ) / 25 * (108/100)⌉

/-- `inter_cls = math.ceil(inter / 25 * 1.08)` -/
def inter_cls (total : ℤ) : ℤ := ⌈(inter total : ℚ) / 25 * (108/100)⌉

/-- `sec_cls = math.ceil(sec / 25 * 1.08)` -/
def sec_cls (total : ℤ) : ℤ := ⌈(sec total : ℚ) / 25 * (108/100)⌉

/-- `total_cls = ey_cls + pri_cls + inter_cls + sec_cls` -/
def total_cls (total : ℤ) : ℤ :=
  ey_cls total + pri_cls total + inter_cls total + sec_cls total

/-- `teaching_net = ey_cls * 55.0 + pri_cls * 43.12 + inter_cls * 43.12 + sec_cls * 43.12` -/
def teaching_net (total : ℤ) : ℚ :=
  ey_cls total * 55 + pri_cls total * (1078/25)
    + inter_cls total * (1078/25) + sec_cls total * (1078/25)

/-- `n_labs = math.ceil((pri_cls + inter_cls + sec_cls) / 10) * 2` -/
def n_labs (total : ℤ) : ℤ :=
  ⌈((pri_cls total + inter_cls total + sec_cls total : ℤ) : ℚ) / 10⌉ * 2

/-- `labs_net = n_labs * 65` -/
def labs_net (total : ℤ) : ℤ := n_labs total * 65

/-- `n_ict = math.ceil((pri_cls + inter_cls + sec_cls) / 15) * 2` -/
def n_ict (total : ℤ) : ℤ :=
  ⌈((pri_cls total + inter_cls total + sec_cls total : ℤ) : ℚ) / 15⌉ * 2

/-- `ict_net = n_ict * 65` -/
def ict_net (total : ℤ) : ℤ := n_ict total * 65

/-- `scale = total / 7000` -/
def scale (total : ℤ) : ℚ := (total : ℚ) / 7000

/-- `sen_net = round(736 * scale)` — note: no floor is applied here. -/
def sen_net (total : ℤ) : ℤ := pyRound (736 * scale total)

/-- `admin_net = round(672 * max(scale, 0.85))` -/
def admin_net (total : ℤ) : ℤ := pyRound (672 * max (scale total) (85/100))

/-- `staff_net = round(950 * scale)` -/
def staff_net (total : ℤ) : ℤ := pyRound (950 * scale total)

/-- `it_ops_net = round(641 * max(scale, 0.85))` -/
def it_ops_net (total : ℤ) : ℤ := pyRound (641 * max (scale total) (85/100))

/-- `food_net = round(3380 * scale)` -/
def food_net (total : ℤ) : ℤ := pyRound (3380 * scale total)

/-- `sports_net = round(3981 * max(scale, 0.8))` -/
def sports_net (total : ℤ) : ℤ := pyRound (3981 * max (scale total) (8/10))

/-- `audit_commons_net = round(4070 * max(scale, 0.8))` -/
def audit_commons_net (total : ℤ) : ℤ := pyRound (4070 * max (scale total) (8/10))

/-- `total_net = teaching_net + labs_net + ict_net + sen_net + admin_net +
staff_net + it_ops_net + food_net + sports_net + audit_commons_net` -/
def total_net (total : ℤ) : ℚ :=
  teaching_net total + labs_net total + ict_net total + sen_net total
    + admin_net total + staff_net total + it_ops_net total + food_net total
    + sports_net total + audit_commons_net total

/-- `academic_gross = (teaching_net + labs_net + ict_net + sen_net + admin_net + staff_net) * 1.45` -/
def academic_gross (total : ℤ) : ℚ :=
  (teaching_net total + labs_net total + ict_net total + sen_net total
    + admin_net total + staff_net total) * (145/100)

/-- `high_service_gross = (food_net + sports_net + audit_commons_net) * 1.65` -/
def high_service_gross (total : ℤ) : ℚ :=
  (((food_net total : ℚ)) + sports_net total + audit_commons_net total) * (165/100)

/-- `ops_gross = it_ops_net * 1.55` -/
def ops_gross (total : ℤ) : ℚ := (it_ops_net total : ℚ) * (155/100)

/-- `total_gross = academic_gross + high_service_gross + ops_gross` -/
def total_gross (total : ℤ) : ℚ :=
  academic_gross total + high_service_gross total + ops_gross total

end compute_scenario

namespace DonorPricing
/-!
Embedding of `build_donor_pricing.py`: the constants, `cost_per_unit`,
`usd`, the `UNITS` catalog (names, quantities, NET areas and grossing
factors; the prose description and students-served note of each tuple
carry no numeric content and are omitted), the Unit Pricing sheet's
per-row total and running grand total, and the Category Summary sheet's
single-pass category fold.
-/

/-- `TOTAL_COST_SAR = 250_000_000` -/
def TOTAL_COST_SAR : ℤ := 250000000

/-- `TOTAL_BUA = 52_400` -/
def TOTAL_BUA : ℤ := 52400

/-- `COST_PER_BUA_M2 = TOTAL_COST_SAR / TOTAL_BUA` -/
def COST_PER_BUA_M2 : ℚ := (TOTAL_COST_SAR : ℚ) / (TOTAL_BUA : ℚ)

/-- `SAR_TO_USD = 1 / 3.75` -/
def SAR_TO_USD : ℚ := 1 / (375/100)

/-- `GF_ACADEMIC = 1.45` -/
def GF_ACADEMIC : ℚ := 145/100

/-- `GF_HIGH_SERVICE = 1.65` -/
def GF_HIGH_SERVICE : ℚ := 165/100

/-- `GF_OPERATIONS = 1.55` -/
def GF_OPERATIONS : ℚ := 155/100

/-- `cost_per_unit(net_m2, grossing_factor)`:
`bua = net_m2 * grossing_factor; return round(bua * COST_PER_BUA_M2)` -/
def cost_per_unit (net_m2 grossing_factor : ℚ) : ℤ :=
  pyRound (net_m2 * grossing_factor * COST_PER_BUA_M2)

/-- `usd(sar) = round(sar * SAR_TO_USD)` -/
def usd (sar : ℚ) : ℤ := pyRound (sar * SAR_TO_USD)

/-- One entry of the `UNITS` list: either a category-marker row
(`qty is None` in the source) or a priced unit. -/
inductive UnitEntry where
  | category (name : String)
  | unit (name : String) (qty : ℤ) (net_m2 : ℚ) (grossing_factor : ℚ)

set_option maxHeartbeats 2000000 in
/-- The `UNITS` catalog of `build_donor_pricing.py` (lines 80-298), in
source order. -/
def UNITS : List UnitEntry := [
  .category "CLASSROOMS & TEACHING SPACES",
  .unit "Standard Classroom (Grades 1–12)" 249 (1078/25) GF_ACADEMIC,
  .unit "Kindergarten Classroom" 26 (125/2) GF_ACADEMIC,
  .unit "Nursery Activity Room" 9 45 GF_ACADEMIC,
  .unit "Nursery Bedroom / Rest Room" 9 (45/2) GF_ACADEMIC,
  .unit "Reception Classroom" 20 (125/2) GF_ACADEMIC,
  .unit "Early Years Learning Commons" 3 120 GF_ACADEMIC,
  .unit "Primary Multi-Purpose Room" 4 (85/2) GF_ACADEMIC,
  .category "SCIENCE LABORATORIES",
  .unit "Primary Science Lab" 13 (601/10) GF_HIGH_SERVICE,
  .unit "Intermediate Science Lab" 7 (1574/25) GF_HIGH_SERVICE,
  .unit "Secondary Science Lab (Physics / Chemistry / Biology)" 12 (699/10) GF_HIGH_SERVICE,
  .unit "Science Prep Room" 6 18 GF_HIGH_SERVICE,
  .unit "Chemical Storage Room" 2 12 GF_HIGH_SERVICE,
  .category "COMPUTER & ICT LABS",
  .unit "Primary Computer / Language Lab" 6 (601/10) GF_HIGH_SERVICE,
  .unit "Secondary Computer / Language Lab" 10 (699/10) GF_HIGH_SERVICE,
  .category "SPECIALIST STUDIOS & MAKER SPACES",
  .unit "Maker / Robotics Lab" 2 120 GF_HIGH_SERVICE,
  .unit "Art Studio" 2 90 GF_HIGH_SERVICE,
  .unit "Primary Art Atelier" 4 (419/10) GF_ACADEMIC,
  .unit "Music / Drama Room" 2 80 GF_HIGH_SERVICE,
  .category "LIBRARIES & LEARNING RESOURCE CENTRES",
  .unit "Primary Library / LRC" 2 (751/10) GF_ACADEMIC,
  .unit "Intermediate LRC" 2 (747/10) GF_ACADEMIC,
  .unit "Secondary LRC" 2 (443/5) GF_ACADEMIC,
  .category "SPORTS & PHYSICAL EDUCATION",
  .unit "Indoor Multi-Purpose Sports Hall" 2 900 GF_HIGH_SERVICE,
  .unit "25m Swimming Pool Complex" 1 1717 GF_HIGH_SERVICE,
  .unit "Sports Changing & Shower Room" 4 160 GF_HIGH_SERVICE,
  .unit "Sports Storage Room" 4 25 GF_HIGH_SERVICE,
  .unit "Outdoor Multi-Sport Court" 6 450 GF_HIGH_SERVICE,
  .category "DINING & FOOD SERVICES",
  .unit "Dining Hall (700-seat, multi-shift)" 2 1100 GF_HIGH_SERVICE,
  .unit "Commercial Kitchen & Prep Area" 2 300 GF_HIGH_SERVICE,
  .unit "Cold Room / Dry Store" 4 (75/2) GF_OPERATIONS,
  .category "AUDITORIUM & ASSEMBLY SPACES",
  .unit "Auditorium (300 seats)" 1 740 GF_HIGH_SERVICE,
  .unit "Atrium / Learning Commons" 1 2000 GF_HIGH_SERVICE,
  .unit "Seminar Room" 4 45 GF_ACADEMIC,
  .unit "Breakout Room (Glass-walled)" 8 25 GF_ACADEMIC,
  .category "EXAM CENTRE",
  .unit "Exam Hall (300 candidates)" 1 750 GF_ACADEMIC,
  .unit "Candidate Holding Room" 2 60 GF_ACADEMIC,
  .category "SEN & STUDENT WELLBEING",
  .unit "SEN Resource Room (Small Group)" 10 25 GF_ACADEMIC,
  .unit "1:1 Assessment Room" 8 12 GF_ACADEMIC,
  .unit "Speech & Language Therapy Room" 4 16 GF_ACADEMIC,
  .unit "Occupational Therapy Room" 2 20 GF_ACADEMIC,
  .unit "Sensory Room" 2 24 GF_ACADEMIC,
  .unit "Counsellor Room" 4 12 GF_ACADEMIC,
  .unit "Medical Clinic / Nurse Room" 2 20 GF_ACADEMIC,
  .unit "Isolation / Rest Room (Medical)" 2 10 GF_ACADEMIC,
  .category "STAFF & PROFESSIONAL DEVELOPMENT",
  .unit "Staff Workroom (Distributed)" 12 45 GF_ACADEMIC,
  .unit "Staff Lounge" 2 90 GF_ACADEMIC,
  .unit "Teacher Training / PD Room" 2 45 GF_ACADEMIC,
  .category "ADMINISTRATION & GOVERNANCE",
  .unit "Reception & Welcome Desk" 2 25 GF_ACADEMIC,
  .unit "Principal\'s Office" 1 20 GF_ACADEMIC,
  .unit "Admissions Office" 2 18 GF_ACADEMIC,
  .unit "Finance & Cashier Office" 2 40 GF_ACADEMIC,
  .unit "Board / SMC Meeting Room" 1 30 GF_ACADEMIC,
  .unit "School Store / Bookshop" 1 80 GF_ACADEMIC,
  .unit "Uniform Shop" 1 60 GF_ACADEMIC,
  .category "IT INFRASTRUCTURE & SECURITY",
  .unit "Server Room / MDF" 2 20 GF_OPERATIONS,
  .unit "Main Security Control Room (CCTV)" 1 20 GF_OPERATIONS,
  .unit "IT Helpdesk Office" 2 18 GF_OPERATIONS,
  .category "TRANSPORT & LOGISTICS",
  .unit "Transport Office & Driver Lounge" 1 43 GF_OPERATIONS,
  .category "PRAYER & SPIRITUAL SPACES",
  .unit "Prayer Room / Musalla" 4 60 GF_ACADEMIC
]

/-- Total (SAR) of one Unit Pricing sheet row:
`unit_cost_sar = cost_per_unit(net_m2, gf); total_sar = unit_cost_sar * qty`.
A category-marker row is skipped by the sheet loop (contributes nothing). -/
def rowTotalSar : UnitEntry → ℤ
  | .category _ => 0
  | .unit _ qty net_m2 gf => cost_per_unit net_m2 gf * qty

/-- The running `grand_total_sar` of the Unit Pricing sheet loop: the sum
of `cost_per_unit(net_m2, gf) * qty` over every (non-marker) unit row. -/
def grand_total_sar : List UnitEntry → ℤ
  | [] => 0
  | .category _ :: rest => grand_total_sar rest
  | .unit _ qty net_m2 gf :: rest => cost_per_unit net_m2 gf * qty + grand_total_sar rest

/-- One row of the Category Summary sheet:
`(category name, cat_units, cat_net, cat_cost)`. -/
structure CatTotal where
  name : String
  units : ℤ
  net : ℚ
  cost : ℤ

/-- The single-pass category fold of the Category Summary sheet
(`build_donor_pricing.py`, lines 671-701): `cur` is `current_cat`, and
`cu`/`cn`/`cc` are the running `cat_units`/`cat_net`/`cat_cost`.  A
marker row closes the currently open aggregate (appending it if one is
open) and opens a new one; a unit row accumulates into the open
aggregate; the last aggregate is appended at the end. -/
def foldCats : List UnitEntry → Option String → ℤ → ℚ → ℤ → List CatTotal
  | [], none, _, _, _ => []
  | [], some n, cu, cn, cc => [⟨n, cu, cn, cc⟩]
  | .category m :: rest, none, _, _, _ => foldCats rest (some m) 0 0 0
  | .category m :: rest, some n, cu, cn, cc =>
      ⟨n, cu, cn, cc⟩ :: foldCats rest (some m) 0 0 0
  | .unit _ qty net_m2 gf :: rest, cur, cu, cn, cc =>
      foldCats rest cur (cu + qty) (cn + net_m2 * qty) (cc + cost_per_unit net_m2 gf * qty)

/-- `category_totals` as built from `UNITS` by the Category Summary fold. -/
def category_totals : List CatTotal := foldCats UNITS none 0 0 0

/-- `overall_total = sum(c[3] for c in category_totals)` -/
def overall_total : ℤ := (category_totals.map CatTotal.cost).sum

/-- Name-keyed catalog lookup, as the `unit_lookup` dict of the Unit
Pricing sheet loop (first entry with the given name). -/
def findUnit (n : String) : Option UnitEntry :=
  UNITS.find? fun e => match e with
    | .unit m _ _ _ => m == n
    | .category _ => false

/-- `ey_wing_cost` (lines 527-531):
`9 * cost_per_unit(45, GF_ACADEMIC) + 9 * cost_per_unit(22.5, GF_ACADEMIC) +
20 * cost_per_unit(62.5, GF_ACADEMIC) + 26 * cost_per_unit(62.5, GF_ACADEMIC) +
3 * cost_per_unit(120, GF_ACADEMIC)` -/
def ey_wing_cost : ℤ :=
  9 * cost_per_unit 45 GF_ACADEMIC + 9 * cost_per_unit (45/2) GF_ACADEMIC
    + 20 * cost_per_unit (125/2) GF_ACADEMIC + 26 * cost_per_unit (125/2) GF_ACADEMIC
    + 3 * cost_per_unit 120 GF_ACADEMIC

end DonorPricing

namespace DonorPricingDeck
/-!
Embedding of the hard-coded category summary of
`build_donor_pricing_deck.py` (lines 193-212): the `CATEGORIES` table
`(name, unit count, total NET m², total SAR cost, % of budget)` and the
grand-total constants.
-/

/-- One hard-coded row of the deck's `CATEGORIES` table. -/
structure DeckRow where
  name : String
  units : ℤ
  net_m2 : ℤ
  cost_sar : ℤ
  pct : ℚ

/-- The deck's `CATEGORIES` table, in source order. -/
def CATEGORIES : List DeckRow := [
  ⟨"Classrooms & Teaching", 320, 14749, 102035420, 393/10⟩,
  ⟨"Science Laboratories", 40, 2193, 17262169, 66/10⟩,
  ⟨"Computer & ICT Labs", 16, 1060, 8341310, 32/10⟩,
  ⟨"Specialist Studios", 10, 748, 5725286, 22/10⟩,
  ⟨"Libraries & LRC", 6, 477, 3298472, 13/10⟩,
  ⟨"Sports & PE", 17, 6957, 54766460, 211/10⟩,
  ⟨"Dining & Food", 8, 2950, 23151240, 89/10⟩,
  ⟨"Auditorium & Assembly", 14, 3120, 24198469, 93/10⟩,
  ⟨"Exam Centre", 3, 870, 6018606, 23/10⟩,
  ⟨"SEN & Wellbeing", 34, 606, 4192264, 16/10⟩,
  ⟨"Staff & PD", 16, 810, 5603528, 22/10⟩,
  ⟨"Administration", 10, 356, 2462786, 9/10⟩,
  ⟨"IT & Security", 5, 96, 709925, 3/10⟩,
  ⟨"Transport", 1, 43, 317987, 1/10⟩,
  ⟨"Prayer Spaces", 4, 240, 1660304, 6/10⟩
]

/-- `GRAND_TOTAL_SAR = 259_744_226` -/
def GRAND_TOTAL_SAR : ℤ := 259744226

/-- `GRAND_TOTAL_USD = 69_265_127` -/
def GRAND_TOTAL_USD : ℤ := 69265127

end DonorPricingDeck

/-!
## Helper lemmas
-/

open compute_scenario DonorPricing in
/-- One step of the category fold at a marker row with no open aggregate. -/
theorem foldCats_category_none (m : String) (rest : List UnitEntry)
    (cu : ℤ) (cn : ℚ) (cc : ℤ) :
    foldCats (UnitEntry.category m :: rest) none cu cn cc
      = foldCats rest (some m) 0 0 0 := by
  simp [foldCats]

open DonorPricing in
/-- A marker row contributes nothing to the Unit Pricing grand total. -/
theorem grand_total_sar_category (m : String) (rest : List UnitEntry) :
    grand_total_sar (UnitEntry.category m :: rest) = grand_total_sar rest := by
  simp [grand_total_sar]

open DonorPricing in
/-- With an aggregate open, the category fold's rows carry a total cost of
the open aggregate's running cost plus every remaining unit's total cost. -/
theorem foldCats_cost_sum (l : List UnitEntry) :
    ∀ (n : String) (cu : ℤ) (cn : ℚ) (cc : ℤ),
      ((foldCats l (some n) cu cn cc).map CatTotal.cost).sum
        = cc + grand_total_sar l := by
  induction l with
  | nil => intro n cu cn cc; simp [foldCats, grand_total_sar]
  | cons e rest ih =>
    intro n cu cn cc
    cases e with
    | category m =>
      simp only [foldCats, grand_total_sar, List.map_cons, List.sum_cons, ih]
      ring
    | unit nm q net gf =>
      simp only [foldCats, grand_total_sar, ih]
      ring

open DonorPricing in
set_option maxHeartbeats 4000000 in
/-- The category fold over the fixed `UNITS` catalog, evaluated. -/
theorem category_totals_eval : category_totals = [
    ⟨"CLASSROOMS & TEACHING SPACES", 320, 737469/50, 102035420⟩,
    ⟨"SCIENCE LABORATORIES", 40, 109641/50, 17262169⟩,
    ⟨"COMPUTER & ICT LABS", 16, 5298/5, 8341310⟩,
    ⟨"SPECIALIST STUDIOS & MAKER SPACES", 10, 3738/5, 5725286⟩,
    ⟨"LIBRARIES & LEARNING RESOURCE CENTRES", 6, 2384/5, 3298472⟩,
    ⟨"SPORTS & PHYSICAL EDUCATION", 17, 6957, 54766460⟩,
    ⟨"DINING & FOOD SERVICES", 8, 2950, 23151240⟩,
    ⟨"AUDITORIUM & ASSEMBLY SPACES", 14, 3120, 24198469⟩,
    ⟨"EXAM CENTRE", 3, 870, 6018606⟩,
    ⟨"SEN & STUDENT WELLBEING", 34, 606, 4192264⟩,
    ⟨"STAFF & PROFESSIONAL DEVELOPMENT", 16, 810, 5603528⟩,
    ⟨"ADMINISTRATION & GOVERNANCE", 10, 356, 2462786⟩,
    ⟨"IT INFRASTRUCTURE & SECURITY", 5, 96, 709925⟩,
    ⟨"TRANSPORT & LOGISTICS", 1, 43, 317987⟩,
    ⟨"PRAYER & SPIRITUAL SPACES", 4, 240, 1660304⟩] := by
  norm_num [category_totals, UNITS, foldCats, cost_per_unit, COST_PER_BUA_M2,
    TOTAL_COST_SAR, TOTAL_BUA, GF_ACADEMIC, GF_HIGH_SERVICE, GF_OPERATIONS, pyRound]

/-!
## The claims
-/

/-- C1: for every positive `total_students`, the four segment student
counts of `compute_scenario` sum exactly to the input, the Secondary
segment being the input minus the three rounded segments. -/
theorem claim_C1 (total : ℤ) (h : 0 < total) :
    compute_scenario.ey total + compute_scenario.pri total
      + compute_scenario.inter total + compute_scenario.sec total = total := by
  simp only [compute_scenario.sec]
  ring

/-- Witness for C1 at `total_students = 7000`. -/
theorem claim_C1_witness :
    0 < (7000 : ℤ)
    ∧ compute_scenario.ey 7000 + compute_scenario.pri 7000
        + compute_scenario.inter 7000 + compute_scenario.sec 7000 = 7000 :=
  ⟨by norm_num, claim_C1 7000 (by norm_num)⟩

/-- C2: `compute_scenario(7000)` yields Early Years = 1064,
Primary = 2177, Intermediate = 2730 and Secondary = 1029. -/
theorem claim_C2 :
    compute_scenario.ey 7000 = 1064 ∧ compute_scenario.pri 7000 = 2177
    ∧ compute_scenario.inter 7000 = 2730 ∧ compute_scenario.sec 7000 = 1029 := by
  have he : compute_scenario.ey 7000 = 1064 := by
    norm_num [compute_scenario.ey, pyRound]
  have hp : compute_scenario.pri 7000 = 2177 := by
    norm_num [compute_scenario.pri, pyRound]
  have hi : compute_scenario.inter 7000 = 2730 := by
    norm_num [compute_scenario.inter, pyRound]
  refine ⟨he, hp, hi, ?_⟩
  rw [compute_scenario.sec, he, hp, hi]
  norm_num

open compute_scenario in
/-- C3: for every positive `total_students`, each segment's classroom
count is `ceil(segment / capacity * 1.08)` with capacity 22 for Early
Years and 25 otherwise, and `total_cls` is the sum of the four. -/
theorem claim_C3 (total : ℤ) (h : 0 < total) :
    ey_cls total = ⌈(ey total : ℚ) / 22 * (108/100)⌉
    ∧ pri_cls total = ⌈(pri total : ℚ) / 25 * (108/100)⌉
    ∧ inter_cls total = ⌈(inter total : ℚ) / 25 * (108/100)⌉
    ∧ sec_cls total = ⌈(sec total : ℚ) / 25 * (108/100)⌉
    ∧ total_cls total = ey_cls total + pri_cls total + inter_cls total + sec_cls total :=
  ⟨rfl, rfl, rfl, rfl, rfl⟩

open compute_scenario in
/-- Witness for C3 at `total_students = 7000`. -/
theorem claim_C3_witness :
    0 < (7000 : ℤ)
    ∧ (ey_cls 7000 = ⌈(ey 7000 : ℚ) / 22 * (108/100)⌉
      ∧ pri_cls 7000 = ⌈(pri 7000 : ℚ) / 25 * (108/100)⌉
      ∧ inter_cls 7000 = ⌈(inter 7000 : ℚ) / 25 * (108/100)⌉
      ∧ sec_cls 7000 = ⌈(sec 7000 : ℚ) / 25 * (108/100)⌉
      ∧ total_cls 7000 = ey_cls 7000 + pri_cls 7000 + inter_cls 7000 + sec_cls 7000) :=
  ⟨by norm_num, claim_C3 7000 (by norm_num)⟩

open compute_scenario in
/-- C4 (as written) is false: the claim says the SEN area is floored at
`max(scale, 0.85)`, but `sen_net = round(736 * scale)` applies no floor.
At `total_students = 5500` (scale `11/14 < 0.85`) the code yields 578
while the floored formula yields 626. -/
theorem claim_C4_counterexample :
    sen_net 5500 = 578
    ∧ sen_net 5500 ≠ pyRound (736 * max (scale 5500) (85/100)) := by
  constructor
  · norm_num [sen_net, scale, pyRound]
  · norm_num [sen_net, scale, pyRound, max_def]

open compute_scenario in
/-- C4 amended: SEN, staff and food areas scale linearly with no floor;
admin and IT/ops are floored at `max(scale, 0.85)`; sports and
auditorium/commons are floored at `max(scale, 0.80)`. -/
theorem claim_C4 (total : ℤ) (h : 0 < total) :
    scale total = (total : ℚ) / 7000
    ∧ sen_net total = pyRound (736 * scale total)
    ∧ admin_net total = pyRound (672 * max (scale total) (85/100))
    ∧ staff_net total = pyRound (950 * scale total)
    ∧ it_ops_net total = pyRound (641 * max (scale total) (85/100))
    ∧ food_net total = pyRound (3380 * scale total)
    ∧ sports_net total = pyRound (3981 * max (scale total) (8/10))
    ∧ audit_commons_net total = pyRound (4070 * max (scale total) (8/10)) :=
  ⟨rfl, rfl, rfl, rfl, rfl, rfl, rfl, rfl⟩

open compute_scenario in
/-- Witness for the amended C4 at `total_students = 5500`. -/
theorem claim_C4_witness :
    0 < (5500 : ℤ)
    ∧ (scale 5500 = (5500 : ℚ) / 7000
      ∧ sen_net 5500 = pyRound (736 * scale 5500)
      ∧ admin_net 5500 = pyRound (672 * max (scale 5500) (85/100))
      ∧ staff_net 5500 = pyRound (950 * scale 5500)
      ∧ it_ops_net 5500 = pyRound (641 * max (scale 5500) (85/100))
      ∧ food_net 5500 = pyRound (3380 * scale 5500)
      ∧ sports_net 5500 = pyRound (3981 * max (scale 5500) (8/10))
      ∧ audit_commons_net 5500 = pyRound (4070 * max (scale 5500) (8/10))) :=
  ⟨by norm_num, claim_C4 5500 (by norm_num)⟩

open compute_scenario in
/-- C5: for every positive `total_students`, the total gross area (BUA)
is the sum of the three grossed sub-aggregates — academic-class spaces
(teaching + labs/ICT + SEN + admin + staff) times 1.45, shared
high-service spaces (food + sports + auditorium/commons) times 1.65 and
operations spaces (IT/ops) times 1.55 — the factor applied to each
sub-aggregate before summing. -/
theorem claim_C5 (total : ℤ) (h : 0 < total) :
    total_gross total
      = (teaching_net total + labs_net total + ict_net total + sen_net total
          + admin_net total + staff_net total) * (145/100)
        + (((food_net total : ℚ)) + sports_net total + audit_commons_net total) * (165/100)
        + (it_ops_net total : ℚ) * (155/100) := rfl

open compute_scenario in
/-- Witness for C5 at `total_students = 7000`. -/
theorem claim_C5_witness :
    0 < (7000 : ℤ)
    ∧ total_gross 7000
      = (teaching_net 7000 + labs_net 7000 + ict_net 7000 + sen_net 7000
          + admin_net 7000 + staff_net 7000) * (145/100)
        + (((food_net 7000 : ℚ)) + sports_net 7000 + audit_commons_net 7000) * (165/100)
        + (it_ops_net 7000 : ℚ) * (155/100) :=
  ⟨by norm_num, claim_C5 7000 (by norm_num)⟩

open DonorPricing in
/-- C6: every priced catalog entry's row total is the unit cost
`round(net_area * grossing_factor * COST_PER_BUA_M2)` rounded first and
then multiplied by the quantity. -/
theorem claim_C6 (name : String) (q : ℤ) (net gf : ℚ)
    (h : UnitEntry.unit name q net gf ∈ UNITS) :
    rowTotalSar (UnitEntry.unit name q net gf)
      = pyRound (net * gf * COST_PER_BUA_M2) * q := rfl

open DonorPricing in
/-- Witness for C6 at the Standard Classroom catalog entry. -/
theorem claim_C6_witness :
    (UnitEntry.unit "Standard Classroom (Grades 1–12)" 249 (1078/25) GF_ACADEMIC ∈ UNITS)
    ∧ rowTotalSar (UnitEntry.unit "Standard Classroom (Grades 1–12)" 249 (1078/25) GF_ACADEMIC)
      = pyRound ((1078/25) * GF_ACADEMIC * COST_PER_BUA_M2) * 249 :=
  ⟨by simp [UNITS], claim_C6 "Standard Classroom (Grades 1–12)" 249 (1078/25) GF_ACADEMIC
    (by simp [UNITS])⟩

open DonorPricing in
/-- C7: over the fixed ordered `UNITS` catalog, the costs of the
category aggregates produced by the single-pass fold sum to the grand
total of every individual unit's total cost. -/
theorem claim_C7 :
    ((category_totals.map CatTotal.cost).sum : ℤ) = grand_total_sar UNITS := by
  rw [category_totals, UNITS, foldCats_category_none, foldCats_cost_sum,
    grand_total_sar_category]
  omega

open DonorPricing in
/-- C8 (as written) is false in its last clause: `ey_wing_cost` is the
weighted sum of the five Early Years unit costs at multiplicities
9, 9, 20, 26 and 3 — and these are exactly the catalog quantities of
those five units, not different from them. -/
theorem claim_C8_counterexample :
    findUnit "Nursery Activity Room"
      = some (UnitEntry.unit "Nursery Activity Room" 9 45 GF_ACADEMIC)
    ∧ findUnit "Nursery Bedroom / Rest Room"
      = some (UnitEntry.unit "Nursery Bedroom / Rest Room" 9 (45/2) GF_ACADEMIC)
    ∧ findUnit "Reception Classroom"
      = some (UnitEntry.unit "Reception Classroom" 20 (125/2) GF_ACADEMIC)
    ∧ findUnit "Kindergarten Classroom"
      = some (UnitEntry.unit "Kindergarten Classroom" 26 (125/2) GF_ACADEMIC)
    ∧ findUnit "Early Years Learning Commons"
      = some (UnitEntry.unit "Early Years Learning Commons" 3 120 GF_ACADEMIC)
    ∧ ey_wing_cost
      = 9 * cost_per_unit 45 GF_ACADEMIC + 9 * cost_per_unit (45/2) GF_ACADEMIC
        + 20 * cost_per_unit (125/2) GF_ACADEMIC + 26 * cost_per_unit (125/2) GF_ACADEMIC
        + 3 * cost_per_unit 120 GF_ACADEMIC := by
  refine ⟨?_, ?_, ?_, ?_, ?_, rfl⟩ <;> simp [findUnit, UNITS, List.find?]

open DonorPricing in
/-- C8 amended: the "Entire Early Years Wing" package cost is a weighted
sum of the five Early Years unit costs, at quantities that exactly match
those units' catalog quantities; it therefore equals the sum of those
five catalog rows' totals. -/
theorem claim_C8 :
    ey_wing_cost
      = rowTotalSar (UnitEntry.unit "Nursery Activity Room" 9 45 GF_ACADEMIC)
        + rowTotalSar (UnitEntry.unit "Nursery Bedroom / Rest Room" 9 (45/2) GF_ACADEMIC)
        + rowTotalSar (UnitEntry.unit "Reception Classroom" 20 (125/2) GF_ACADEMIC)
        + rowTotalSar (UnitEntry.unit "Kindergarten Classroom" 26 (125/2) GF_ACADEMIC)
        + rowTotalSar (UnitEntry.unit "Early Years Learning Commons" 3 120 GF_ACADEMIC)
    ∧ UnitEntry.unit "Nursery Activity Room" 9 45 GF_ACADEMIC ∈ UNITS
    ∧ UnitEntry.unit "Nursery Bedroom / Rest Room" 9 (45/2) GF_ACADEMIC ∈ UNITS
    ∧ UnitEntry.unit "Reception Classroom" 20 (125/2) GF_ACADEMIC ∈ UNITS
    ∧ UnitEntry.unit "Kindergarten Classroom" 26 (125/2) GF_ACADEMIC ∈ UNITS
    ∧ UnitEntry.unit "Early Years Learning Commons" 3 120 GF_ACADEMIC ∈ UNITS := by
  refine ⟨?_, ?_, ?_, ?_, ?_, ?_⟩
  · simp only [ey_wing_cost, rowTotalSar]
    ring
  all_goals simp [UNITS]

open compute_scenario in
/-- C9 (as written) is false: `compute_scenario` performs no validation.
At the non-positive input 0 it silently returns a value — all four
segment counts are 0 and the unfloored SEN, staff and food areas are
0 — instead of failing fast with a validation error. -/
theorem claim_C9_counterexample :
    ey 0 = 0 ∧ pri 0 = 0 ∧ inter 0 = 0 ∧ sec 0 = 0
    ∧ sen_net 0 = 0 ∧ staff_net 0 = 0 ∧ food_net 0 = 0 := by
  refine ⟨?_, ?_, ?_, ?_, ?_, ?_, ?_⟩
  · norm_num [ey, pyRound]
  · norm_num [pri, pyRound]
  · norm_num [inter, pyRound]
  · norm_num [sec, ey, pri, inter, pyRound]
  · norm_num [sen_net, scale, pyRound]
  · norm_num [staff_net, scale, pyRound]
  · norm_num [food_net, scale, pyRound]

open compute_scenario in
/-- C9 amended: on a non-positive input `compute_scenario` does not
fail; it silently produces degenerate output — at 0 it builds zero
classrooms yet still reports the floored admin, IT/ops, sports and
auditorium/commons areas of a 0.80-0.85-scale campus. -/
theorem claim_C9 :
    total_cls 0 = 0 ∧ admin_net 0 = 571 ∧ it_ops_net 0 = 545
    ∧ sports_net 0 = 3185 ∧ audit_commons_net 0 = 3256 := by
  have he : ey 0 = 0 := by norm_num [ey, pyRound]
  have hp : pri 0 = 0 := by norm_num [pri, pyRound]
  have hi : inter 0 = 0 := by norm_num [inter, pyRound]
  have hs : sec 0 = 0 := by norm_num [sec, he, hp, hi]
  refine ⟨?_, ?_, ?_, ?_, ?_⟩
  · rw [total_cls, ey_cls, pri_cls, inter_cls, sec_cls, he, hp, hi, hs]
    norm_num
  · norm_num [admin_net, scale, pyRound, max_def]
  · norm_num [it_ops_net, scale, pyRound, max_def]
  · norm_num [sports_net, scale, pyRound, max_def]
  · norm_num [audit_commons_net, scale, pyRound, max_def]

open DonorPricing in
/-- C10: the deck's hard-coded category summary equals, row for row in
order, the (unit count, rounded NET m², SAR cost, rounded % of budget)
aggregates computed from the `UNITS` catalog by the fold of
`build_donor_pricing.py`, and the deck's grand-total constants equal the
computed grand total and its USD conversion. -/
theorem claim_C10 :
    DonorPricingDeck.CATEGORIES.map (fun r => (r.units, r.net_m2, r.cost_sar, r.pct))
      = category_totals.map (fun c =>
          (c.units, pyRound c.net, c.cost, pyRound1 ((c.cost : ℚ) / (overall_total : ℚ) * 100)))
    ∧ DonorPricingDeck.GRAND_TOTAL_SAR = overall_total
    ∧ DonorPricingDeck.GRAND_TOTAL_USD = usd (overall_total : ℚ) := by
  have hov : overall_total = 259744226 := by
    rw [overall_total, category_totals_eval]
    norm_num
  refine ⟨?_, ?_, ?_⟩
  · rw [category_totals_eval, hov]
    norm_num [DonorPricingDeck.CATEGORIES, pyRound1, pyRound, -Int.self_sub_floor]
  · rw [hov]; rfl
  · rw [hov]
    norm_num [DonorPricingDeck.GRAND_TOTAL_USD, usd, SAR_TO_USD, pyRound]
